import Mathlib

/-!
Shallow embedding of the tinyTalk runtime layer (`src/tinytalk-lang/src/runtime.c`).

Modelling conventions:
* C `double` number payloads are modelled as rationals (`ℚ`); this abstracts the
  IEEE floating-point domain but keeps the evaluator's dispatch structure exact.
* C strings are modelled as byte sequences `List Char` (ASCII bytes); `strdup`
  becomes the identity on the payload, and the fixed `char buffer[1024]` used by
  `snprintf` in string concatenation becomes `List.take 1023` (snprintf writes at
  most 1023 characters plus a terminator into a 1024-byte buffer).
* Mutation of the `Runtime` and of an `Instance` through pointers becomes explicit
  state passing: each C function returns its updated state alongside its result.
* `fprintf(stderr, ...)` diagnostics are modelled by appending the message to a
  `diagnostics` list carried in the `Runtime` state.
* Nullable `ASTNode*` parameters that the C code null-checks are modelled as
  `Option ASTNode`; child pointers the parser always populates are plain `ASTNode`.
* Fixed allocation capacities (64 blueprints, `MAX_VARIABLES`) are not modelled;
  the registries are unbounded lists, faithful below the capacity.
-/

set_option maxRecDepth 10000

abbrev Str := List Char

/-- The `Value` tagged union of `runtime.h`/`runtime.c`:
Number (double), String, Boolean, Null, Array of Values. -/
inductive Value : Type where
  | number (n : ℚ)
  | str (s : Str)
  | boolean (b : Bool)
  | null
  | array (items : List Value)

/-- The binary-operator tokens dispatched by `runtime_evaluate_expression`:
`TOKEN_PLUS_OP` (symbol `+`), `TOKEN_PLUS` (word form), `TOKEN_AMPERSAND`,
`TOKEN_MINUS`, `TOKEN_TIMES`, `TOKEN_DIV`. -/
inductive BinOp : Type where
  | plusOp
  | plus
  | ampersand
  | minus
  | times
  | div
deriving DecidableEq

mutual
/-- AST nodes consumed by the runtime: `NODE_LITERAL`, `NODE_IDENTIFIER`,
`NODE_BINARY_OP`, `NODE_ACTION_SET`, `NODE_BLUEPRINT`; `other` stands for any
further node kind, which the evaluator and `runtime_execute` fall through on. -/
inductive ASTNode : Type where
  | literal (v : Value)
  | identifier (name : Str)
  | binaryOp (op : BinOp) (left right : ASTNode)
  | actionSet (field : Str) (value : Option ASTNode)
  | blueprintDef (bp : BlueprintData)
  | other

/-- The `as.blueprint` payload of a `NODE_BLUEPRINT` node, also the data captured
into a `Blueprint` by `runtime_define_blueprint` (name, fields, states, whens). -/
inductive BlueprintData : Type where
  | mk (name : Str) (fields : List FieldData) (states : List Str) (whens : List WhenData)

/-- The `as.field` payload of a field node: name and (nullable) initial-value
expression. -/
inductive FieldData : Type where
  | mk (name : Str) (initial : Option ASTNode)

/-- The `as.when` payload of a when node: name, action list,
optional result message. -/
inductive WhenData : Type where
  | mk (name : Str) (actions : List ASTNode) (resultMessage : Option Str)
end

def BlueprintData.name : BlueprintData → Str
  | .mk n _ _ _ => n

def BlueprintData.fields : BlueprintData → List FieldData
  | .mk _ f _ _ => f

def BlueprintData.states : BlueprintData → List Str
  | .mk _ _ s _ => s

def BlueprintData.whens : BlueprintData → List WhenData
  | .mk _ _ _ w => w

def FieldData.name : FieldData → Str
  | .mk n _ => n

def FieldData.initial : FieldData → Option ASTNode
  | .mk _ i => i

def WhenData.name : WhenData → Str
  | .mk n _ _ => n

def WhenData.actions : WhenData → List ASTNode
  | .mk _ a _ => a

def WhenData.resultMessage : WhenData → Option Str
  | .mk _ _ m => m

/-- Constructor `value_number`. -/
def value_number (n : ℚ) : Value := Value.number n

/-- Constructor `value_string` (strdup of the payload: same byte content). -/
def value_string (s : Str) : Value := Value.str s

/-- Constructor `value_boolean`. -/
def value_boolean (b : Bool) : Value := Value.boolean b

/-- Constructor `value_null`. -/
def value_null : Value := Value.null

/-- Function `value_copy` from runtime.c: the switch covers `TYPE_NUMBER`, `TYPE_STRING`
(via `strdup`), `TYPE_BOOLEAN` and `TYPE_NULL`; every other tag — in particular
`TYPE_ARRAY` — hits the `default:` case and the copy is `value_null()`. -/
def value_copy : Value → Value
  | .number n => .number n
  | .str s => .str s
  | .boolean b => .boolean b
  | .null => .null
  | .array _ => .null

def Value.isStringV : Value → Bool
  | .str _ => true
  | _ => false

def Value.isNumberV : Value → Bool
  | .number _ => true
  | _ => false

def Value.isArrayV : Value → Bool
  | .array _ => true
  | _ => false

/-- The `%s` rendering used by the string branches of the evaluator: the text of
a String operand, the empty string for any non-String operand. -/
def Value.strPayload : Value → Str
  | .str s => s
  | _ => []

/-- The `ExecutionBounds` configuration set up by `runtime_init`. -/
structure Bounds : Type where
  max_iterations : Nat
  max_recursion_depth : Nat
  max_operations : Nat
  timeout_seconds : ℚ

/-- The mutable `Runtime` state: blueprint registry (in definition order),
instance store (in creation order), variable environment (in insertion order),
bounds and counters, plus the modelled stderr diagnostic channel. -/
structure Runtime : Type where
  blueprints : List BlueprintData
  instances : List Str
  vars : List (Str × Value)
  bounds : Bounds
  operation_count : Nat
  recursion_depth : Nat
  diagnostics : List Str

/-- An `Instance`: blueprint back-reference, owned field vector, optional current
state, and the transaction flag/snapshot pair. -/
structure Instance : Type where
  blueprint : BlueprintData
  field_values : List Value
  current_state : Option Str
  in_transaction : Bool
  field_snapshot : Option (List Value)

/-- The `Result` record returned by `runtime_execute` / `runtime_execute_when`. -/
structure Result : Type where
  success : Bool
  message : Option Str
  value : Value

def msgMaxOps : Str := "Error: Maximum operations exceeded".data

def msgNoAst : Str := "No AST node to execute".data

def msgBlueprintOk : Str := "Blueprint defined successfully".data

def msgBlueprintFail : Str := "Failed to define blueprint".data

def msgWhenNotFound : Str := "When clause not found".data

def msgWhenOk : Str := "When clause executed successfully".data

/-- Function `runtime_init`: empty registries and environment, default bounds
(10000 iterations, depth 100, 1000000 operations, 30.0 seconds), zeroed
counters. -/
def runtime_init : Runtime :=
  { blueprints := []
    instances := []
    vars := []
    bounds :=
      { max_iterations := 10000
        max_recursion_depth := 100
        max_operations := 1000000
        timeout_seconds := 30 }
    operation_count := 0
    recursion_depth := 0
    diagnostics := [] }

/-- The increment `rt->operation_count++` at the top of `runtime_evaluate_expression`. -/
def bumpOps (rt : Runtime) : Runtime :=
  { rt with operation_count := rt.operation_count + 1 }

/-- The `fprintf(stderr, "Error: Maximum operations exceeded\n")` diagnostic. -/
def emitMaxOps (rt : Runtime) : Runtime :=
  { rt with diagnostics := rt.diagnostics ++ [msgMaxOps] }

/-- First-match variable lookup of `runtime_get_variable`. -/
def runtime_get_variable (rt : Runtime) (name : Str) : Option Value :=
  (rt.vars.find? (fun p => decide (p.1 = name))).map Prod.snd

/-- The in-place-overwrite-or-append loop of `runtime_set_variable`. -/
def setVar : List (Str × Value) → Str → Value → List (Str × Value)
  | [], name, v => [(name, v)]
  | (n, w) :: rest, name, v =>
    if n = name then (n, v) :: rest else (n, w) :: setVar rest name v

/-- Function `runtime_set_variable`: overwrite the first binding with that name
(releasing the old value), else append a new binding. -/
def runtime_set_variable (rt : Runtime) (name : Str) (v : Value) : Runtime :=
  { rt with vars := setVar rt.vars name v }

/-- The operand dispatch for `TOKEN_PLUS_OP` / `TOKEN_PLUS`: Number+Number is the
numeric sum; otherwise, if either operand is a String, `snprintf(buffer, 1024,
"%s %s", ...)` joins the payloads with one space (non-Strings print as ""),
keeping at most 1023 characters; every other combination falls through to
`value_null()`. -/
def plusCase : Value → Value → Value
  | .number a, .number b => .number (a + b)
  | l, r =>
    if l.isStringV || r.isStringV then
      .str (List.take 1023 (l.strPayload ++ ' ' :: r.strPayload))
    else
      .null

/-- The operator dispatch of the `NODE_BINARY_OP` branch of
`runtime_evaluate_expression`, applied after both operands are evaluated.
`&` fuses two Strings through `snprintf(buffer, 1024, "%s%s", ...)` (at most
1023 characters kept); `-`, `*`, `/` act on two Numbers; everything else
falls through to `value_null()`. -/
def applyBinOp : BinOp → Value → Value → Value
  | .plusOp, l, r => plusCase l r
  | .plus, l, r => plusCase l r
  | .ampersand, .str a, .str b => .str (List.take 1023 (a ++ b))
  | .ampersand, _, _ => .null
  | .minus, .number a, .number b => .number (a - b)
  | .minus, _, _ => .null
  | .times, .number a, .number b => .number (a * b)
  | .times, _, _ => .null
  | .div, .number a, .number b => .number (a / b)
  | .div, _, _ => .null

/-- The body of `runtime_evaluate_expression` for a non-null node: increment the
operation counter, yield Null (and the stderr diagnostic) when it exceeds
`max_operations`, otherwise dispatch on the node kind. Binary operators evaluate
left then right (threading the counter) and then dispatch; unknown node kinds
yield Null. -/
def evalExpr : Runtime → ASTNode → Value × Runtime
  | rt, .literal v =>
    let rt1 := bumpOps rt
    if rt1.operation_count > rt1.bounds.max_operations then (Value.null, emitMaxOps rt1)
    else (value_copy v, rt1)
  | rt, .identifier name =>
    let rt1 := bumpOps rt
    if rt1.operation_count > rt1.bounds.max_operations then (Value.null, emitMaxOps rt1)
    else
      match runtime_get_variable rt1 name with
      | some v => (value_copy v, rt1)
      | none => (Value.null, rt1)
  | rt, .binaryOp op l r =>
    let rt1 := bumpOps rt
    if rt1.operation_count > rt1.bounds.max_operations then (Value.null, emitMaxOps rt1)
    else
      let p := evalExpr rt1 l
      let q := evalExpr p.2 r
      (applyBinOp op p.1 q.1, q.2)
  | rt, .actionSet _ _ =>
    let rt1 := bumpOps rt
    if rt1.operation_count > rt1.bounds.max_operations then (Value.null, emitMaxOps rt1)
    else (Value.null, rt1)
  | rt, .blueprintDef _ =>
    let rt1 := bumpOps rt
    if rt1.operation_count > rt1.bounds.max_operations then (Value.null, emitMaxOps rt1)
    else (Value.null, rt1)
  | rt, .other =>
    let rt1 := bumpOps rt
    if rt1.operation_count > rt1.bounds.max_operations then (Value.null, emitMaxOps rt1)
    else (Value.null, rt1)

/-- Function `runtime_evaluate_expression` including the `if (!expr) return value_null();`
null-pointer check, which fires before the counter is touched. -/
def runtime_evaluate_expression (rt : Runtime) : Option ASTNode → Value × Runtime
  | none => (Value.null, rt)
  | some e => evalExpr rt e

/-- The truth test of `runtime_evaluate_condition`: Boolean true, or a Number
different from zero. -/
def condTruth : Value → Bool
  | .boolean b => b
  | .number n => decide (n ≠ 0)
  | _ => false

/-- Function `runtime_evaluate_condition`: a null condition is true; otherwise evaluate
the expression and apply the Boolean/non-zero-Number test. -/
def runtime_evaluate_condition (rt : Runtime) : Option ASTNode → Bool × Runtime
  | none => (true, rt)
  | some c =>
    let p := evalExpr rt c
    (condTruth p.1, p.2)

/-- Function `runtime_begin_transaction`: raise the flag and snapshot every field via
`value_copy`, in field order. -/
def runtime_begin_transaction (inst : Instance) : Instance :=
  { inst with
      in_transaction := true
      field_snapshot := some (inst.field_values.map value_copy) }

/-- Function `runtime_commit_transaction`: lower the flag and release the snapshot
without applying it. -/
def runtime_commit_transaction (inst : Instance) : Instance :=
  { inst with in_transaction := false, field_snapshot := none }

/-- Function `runtime_rollback_transaction`: a no-op unless a transaction is open with a
snapshot; otherwise every field becomes `value_copy` of its snapshot entry and
the snapshot is released. -/
def runtime_rollback_transaction (inst : Instance) : Instance :=
  match inst.in_transaction, inst.field_snapshot with
  | true, some snap =>
    { inst with
        field_values := snap.map value_copy
        field_snapshot := none
        in_transaction := false }
  | _, _ => inst

/-- Function `runtime_define_blueprint`: reject non-blueprint nodes, otherwise capture
the node's lists into a new `Blueprint` appended to the registry. -/
def runtime_define_blueprint (rt : Runtime) : ASTNode → Option BlueprintData × Runtime
  | .blueprintDef bp => (some bp, { rt with blueprints := rt.blueprints ++ [bp] })
  | _ => (none, rt)

/-- The first-match registry lookup inside `runtime_create_instance`. -/
def lookupBlueprint (rt : Runtime) (name : Str) : Option BlueprintData :=
  rt.blueprints.find? (fun bp => decide (BlueprintData.name bp = name))

/-- The field-initialisation loop of `runtime_create_instance`: evaluate each
field's initial-value expression in declaration order, threading the runtime
state. -/
def evalFields (rt : Runtime) : List FieldData → List Value × Runtime
  | [] => ([], rt)
  | f :: fs =>
    let p := runtime_evaluate_expression rt (FieldData.initial f)
    let q := evalFields p.2 fs
    (p.1 :: q.1, q.2)

/-- Function `runtime_create_instance`: first-match blueprint lookup (NULL on failure),
then a fresh instance whose fields are the evaluated initialisers, appended to
the instance store (recorded here by blueprint name). -/
def runtime_create_instance (rt : Runtime) (name : Str) : Option Instance × Runtime :=
  match lookupBlueprint rt name with
  | none => (none, rt)
  | some bp =>
    let p := evalFields rt bp.fields
    let inst : Instance :=
      { blueprint := bp
        field_values := p.1
        current_state := none
        in_transaction := false
        field_snapshot := none }
    (some inst, { p.2 with instances := p.2.instances ++ [bp.name] })

/-- Function `runtime_execute`: a null node is a failure; a blueprint node is registered
(the "failed to define" branch is unreachable inside this arm, since the node
kind was already checked); any other node leaves the initial
`success=true, message=NULL` result untouched. -/
def runtime_execute (rt : Runtime) : Option ASTNode → Result × Runtime
  | none => ({ success := false, message := some msgNoAst, value := Value.null }, rt)
  | some n =>
    match n with
    | .blueprintDef bp =>
      let p := runtime_define_blueprint rt (.blueprintDef bp)
      match p.1 with
      | some _ => ({ success := true, message := some msgBlueprintOk, value := Value.null }, p.2)
      | none => ({ success := false, message := some msgBlueprintFail, value := Value.null }, p.2)
    | _ => ({ success := true, message := none, value := Value.null }, rt)

/-- The field-set loop inside `runtime_execute_when`: linear search of the
blueprint's field list for the first name match; on a match the field's old
value is released and overwritten; with no match the evaluated value is
discarded. -/
def setField (inst : Instance) (fname : Str) (v : Value) : Instance :=
  match inst.blueprint.fields.findIdx? (fun f => decide (FieldData.name f = fname)) with
  | some k => { inst with field_values := inst.field_values.set k v }
  | none => inst

/-- The action loop of `runtime_execute_when`: `NODE_ACTION_SET` actions
evaluate their right-hand expression and store it through the field search;
any other action kind is skipped. -/
def applyActions : Runtime → Instance → List ASTNode → Runtime × Instance
  | rt, inst, [] => (rt, inst)
  | rt, inst, a :: rest =>
    match a with
    | .actionSet fname vexpr =>
      let p := runtime_evaluate_expression rt vexpr
      applyActions p.2 (setField inst fname p.1) rest
    | _ => applyActions rt inst rest

/-- Function `runtime_execute_when` (the unused `args` are omitted): first-match search
of the blueprint's when list; no match returns the preset "When clause not
found" failure; a match runs begin-transaction, the action loop, and an
unconditional commit, then reports success with the when's configured or
default message. -/
def runtime_execute_when (rt : Runtime) (inst : Instance) (whenName : Str) :
    Result × Runtime × Instance :=
  match inst.blueprint.whens.find? (fun w => decide (WhenData.name w = whenName)) with
  | none => ({ success := false, message := some msgWhenNotFound, value := Value.null }, rt, inst)
  | some w =>
    let inst1 := runtime_begin_transaction inst
    let p := applyActions rt inst1 w.actions
    let inst2 := runtime_commit_transaction p.2
    let msg :=
      match w.resultMessage with
      | some m => m
      | none => msgWhenOk
    ({ success := true, message := some msg, value := Value.null }, p.1, inst2)

/-- Whether `runtime_execute` treats the node as a `NODE_BLUEPRINT`. -/
def isBlueprintNode : ASTNode → Bool
  | .blueprintDef _ => true
  | _ => false

/-- A runtime whose operation budget is already exhausted at the first step. -/
def rtZero : Runtime :=
  { runtime_init with bounds := { runtime_init.bounds with max_operations := 0 } }

/-- A runtime that allows only two evaluation steps. -/
def rtTwo : Runtime :=
  { runtime_init with bounds := { runtime_init.bounds with max_operations := 2 } }

/-- A three-node expression: its right operand trips the two-operation budget. -/
def eOver : ASTNode :=
  .binaryOp .plus (.literal (.str "a".data)) (.literal (.str "b".data))

/-- Concrete two-field blueprint for the transaction-atomicity witness. -/
def bpW : BlueprintData :=
  .mk "Counter".data
    [.mk "count".data (some (.literal (.number 0))),
     .mk "label".data (some (.literal (.str "hi".data)))]
    [] []

/-- Concrete instance of `bpW` holding a Number and a String field. -/
def instW : Instance :=
  { blueprint := bpW
    field_values := [Value.number 0, Value.str "hi".data]
    current_state := none
    in_transaction := false
    field_snapshot := none }

/-- One field-set action mutating `instW`'s first field. -/
def actsW : List ASTNode :=
  [.actionSet "count".data (some (.literal (.number 5)))]

/-- Blueprint with a single field for the Array rollback counterexample. -/
def bpArr : BlueprintData := .mk "Holder".data [.mk "items".data none] [] []

/-- Instance of `bpArr` whose only field holds an Array value. -/
def instArr : Instance :=
  { blueprint := bpArr
    field_values := [Value.array []]
    current_state := none
    in_transaction := false
    field_snapshot := none }

/-- Blueprint with one when-handler named `greet`, for the unknown-handler witness. -/
def bpGreet : BlueprintData := .mk "Greeter".data [] [] [.mk "greet".data [] none]

/-- Instance of `bpGreet` with no fields. -/
def instGreet : Instance :=
  { blueprint := bpGreet
    field_values := []
    current_state := none
    in_transaction := false
    field_snapshot := none }

/-- A when-handler whose only action sets a field the blueprint does not declare. -/
def whenBoom : WhenData :=
  .mk "boom".data [.actionSet "Nonexistent".data (some (.literal (.number 5)))] none

/-- Blueprint declaring only `count` but whose handler targets `Nonexistent`. -/
def bpCnt : BlueprintData :=
  .mk "Counter2".data [.mk "count".data (some (.literal (.number 0)))] [] [whenBoom]

/-- Instance of `bpCnt` with its single declared field. -/
def instCnt : Instance :=
  { blueprint := bpCnt
    field_values := [Value.number 0]
    current_state := none
    in_transaction := false
    field_snapshot := none }

/-- First blueprint named `Dog`, for the redefinition-shadowing witness. -/
def bpA : BlueprintData := .mk "Dog".data [] [] []

/-- Second blueprint named `Dog`, with a different field list. -/
def bpB : BlueprintData := .mk "Dog".data [.mk "x".data (some (.literal (.number 1)))] [] []

/-- The runtime after defining `bpA` then `bpB`. -/
def rtShadow : Runtime :=
  (runtime_define_blueprint (runtime_define_blueprint runtime_init (.blueprintDef bpA)).2
    (.blueprintDef bpB)).2

example : (evalExpr runtime_init
    (.binaryOp .plus (.literal (.number 3)) (.literal (.number 4)))).1
    = Value.number (3 + 4) := rfl

example : (evalExpr runtime_init
    (.binaryOp .ampersand (.literal (.str "ab".data)) (.literal (.str "cd".data)))).1
    = Value.str "abcd".data := rfl

example : value_copy (Value.array [Value.number 1]) = Value.null := rfl

/-- Function `value_copy` fixes every non-Array value (Numbers, Strings, Booleans, Null). -/
theorem value_copy_eq_self (v : Value) (h : v.isArrayV = false) : value_copy v = v := by
  cases v <;> simp_all [value_copy, Value.isArrayV]

/-- Snapshotting a field vector free of Array values is the identity. -/
theorem map_value_copy_eq_self (l : List Value) (h : ∀ v ∈ l, v.isArrayV = false) :
    l.map value_copy = l := by
  induction l with
  | nil => rfl
  | cons a as ih =>
    simp only [List.map_cons]
    rw [value_copy_eq_self a (h a (by simp)), ih (fun v hv => h v (by simp [hv]))]

/-- The field-set search touches only `field_values`. -/
theorem setField_preserves (inst : Instance) (fname : Str) (v : Value) :
    (setField inst fname v).blueprint = inst.blueprint ∧
    (setField inst fname v).in_transaction = inst.in_transaction ∧
    (setField inst fname v).field_snapshot = inst.field_snapshot := by
  unfold setField
  split <;> simp

/-- The when-handler action loop touches only `field_values` of the instance. -/
theorem applyActions_preserves (as : List ASTNode) : ∀ (rt : Runtime) (inst : Instance),
    (applyActions rt inst as).2.blueprint = inst.blueprint ∧
    (applyActions rt inst as).2.in_transaction = inst.in_transaction ∧
    (applyActions rt inst as).2.field_snapshot = inst.field_snapshot := by
  induction as with
  | nil => intro rt inst; exact ⟨rfl, rfl, rfl⟩
  | cons a rest ih =>
    intro rt inst
    cases a with
    | actionSet fname vexpr =>
      simp only [applyActions]
      obtain ⟨h1, h2, h3⟩ :=
        ih (runtime_evaluate_expression rt vexpr).2
          (setField inst fname (runtime_evaluate_expression rt vexpr).1)
      obtain ⟨g1, g2, g3⟩ :=
        setField_preserves inst fname (runtime_evaluate_expression rt vexpr).1
      exact ⟨h1.trans g1, h2.trans g2, h3.trans g3⟩
    | literal v => simpa only [applyActions] using ih rt inst
    | identifier n => simpa only [applyActions] using ih rt inst
    | binaryOp op l r => simpa only [applyActions] using ih rt inst
    | blueprintDef bp => simpa only [applyActions] using ih rt inst
    | other => simpa only [applyActions] using ih rt inst

/-- Rollback on an open transaction restores `value_copy` of the snapshot. -/
theorem rollback_field_values_of_open (inst : Instance) (snap : List Value)
    (h1 : inst.in_transaction = true) (h2 : inst.field_snapshot = some snap) :
    (runtime_rollback_transaction inst).field_values = snap.map value_copy := by
  unfold runtime_rollback_transaction
  rw [h1, h2]

/-- Claim C1 (amended): beginning a transaction, running any list of handler
actions (any number N of field-sets among them), and rolling back restores the
pre-transaction field vector exactly — provided no pre-transaction field holds
an Array value. (`value_copy` maps Arrays to Null, so Array-valued fields are
not restored; see the counterexample.) -/
theorem tx_rollback_restores_fields (rt : Runtime) (inst : Instance) (actions : List ASTNode)
    (hno : ∀ v ∈ inst.field_values, v.isArrayV = false) :
    (runtime_rollback_transaction
        (applyActions rt (runtime_begin_transaction inst) actions).2).field_values
      = inst.field_values := by
  obtain ⟨h1, h2, h3⟩ := applyActions_preserves actions rt (runtime_begin_transaction inst)
  have hsnap : (applyActions rt (runtime_begin_transaction inst) actions).2.field_snapshot
      = some (inst.field_values.map value_copy) := by
    rw [h3]; rfl
  have hintx : (applyActions rt (runtime_begin_transaction inst) actions).2.in_transaction
      = true := by
    rw [h2]; rfl
  rw [rollback_field_values_of_open _ _ hintx hsnap]
  rw [map_value_copy_eq_self inst.field_values hno, map_value_copy_eq_self inst.field_values hno]

/-- Witness for C1: a concrete Number/String-field instance, one field-set
action, rollback restores the original field vector. -/
theorem tx_rollback_restores_fields_witness :
    (∀ v ∈ instW.field_values, v.isArrayV = false) ∧
    (runtime_rollback_transaction
        (applyActions runtime_init (runtime_begin_transaction instW) actsW).2).field_values
      = instW.field_values :=
  ⟨by decide, tx_rollback_restores_fields runtime_init instW actsW (by decide)⟩

/-- Counterexample for C1 as stated: an instance whose field holds an Array is
not restored by rollback (the field comes back as Null), already with N = 0
field-set actions. -/
theorem tx_rollback_array_cex :
    (runtime_rollback_transaction
        (applyActions runtime_init (runtime_begin_transaction instArr) []).2).field_values
      ≠ instArr.field_values := by
  intro h
  have h' : ([Value.null] : List Value) = [Value.array []] := h
  simp at h'

/-- Claim C2 (amended): `value_copy` returns a Value equal to its argument for
Number, String, Boolean and Null payloads; an Array payload is not deep-copied
but replaced by Null (the `default:` case of the switch), so copy-equality
holds exactly for non-Array values. -/
theorem value_copy_equal_of_not_array (v : Value) (h : v.isArrayV = false) :
    value_copy v = v :=
  value_copy_eq_self v h

/-- Witness for C2 at a concrete String value. -/
theorem value_copy_equal_witness :
    (Value.str "abc".data).isArrayV = false ∧
    value_copy (Value.str "abc".data) = Value.str "abc".data :=
  ⟨rfl, value_copy_equal_of_not_array (Value.str "abc".data) rfl⟩

/-- Counterexample for C2 as stated: copying an Array value yields Null, not an
equal Array. -/
theorem value_copy_array_cex :
    value_copy (Value.array [Value.number 1]) ≠ Value.array [Value.number 1] := by
  intro h
  have h' : Value.null = Value.array [Value.number 1] := h
  exact Value.noConfusion h'

/-- Claim C3 (amended): the full operator table of the evaluator's binary-op
dispatch, with numbers modelled as rationals (division is the total rational
division; the dispatch never fails, matching "not a runtime error"), and with
string joins passed through the 1024-byte `snprintf` buffer, i.e. truncated to
their first 1023 characters. On joins shorter than 1024 characters this is
exactly the space-joined / plainly-fused text claimed by the spec; the
counterexample shows the truncation for longer joins. -/
theorem binary_op_table :
    (∀ a b : ℚ, applyBinOp BinOp.plus (Value.number a) (Value.number b) = Value.number (a + b)
       ∧ applyBinOp BinOp.plusOp (Value.number a) (Value.number b) = Value.number (a + b)) ∧
    (∀ l r : Value, (l.isStringV = true ∨ r.isStringV = true) →
       applyBinOp BinOp.plus l r
           = Value.str (List.take 1023 (l.strPayload ++ ' ' :: r.strPayload))
         ∧ applyBinOp BinOp.plusOp l r
           = Value.str (List.take 1023 (l.strPayload ++ ' ' :: r.strPayload))) ∧
    (∀ a b : Str, applyBinOp BinOp.ampersand (Value.str a) (Value.str b)
       = Value.str (List.take 1023 (a ++ b))) ∧
    (∀ l r : Value, ¬(l.isStringV = true ∧ r.isStringV = true) →
       applyBinOp BinOp.ampersand l r = Value.null) ∧
    (∀ a b : ℚ, applyBinOp BinOp.minus (Value.number a) (Value.number b)
       = Value.number (a - b)) ∧
    (∀ a b : ℚ, applyBinOp BinOp.times (Value.number a) (Value.number b)
       = Value.number (a * b)) ∧
    (∀ a b : ℚ, applyBinOp BinOp.div (Value.number a) (Value.number b)
       = Value.number (a / b)) ∧
    (∀ (op : BinOp) (l r : Value), (op = BinOp.minus ∨ op = BinOp.times ∨ op = BinOp.div) →
       ¬(l.isNumberV = true ∧ r.isNumberV = true) → applyBinOp op l r = Value.null) ∧
    (∀ (op : BinOp) (l r : Value), (op = BinOp.plus ∨ op = BinOp.plusOp) →
       ¬(l.isNumberV = true ∧ r.isNumberV = true) →
       l.isStringV = false → r.isStringV = false → applyBinOp op l r = Value.null) := by
  refine ⟨fun a b => ⟨rfl, rfl⟩, ?_, fun a b => rfl, ?_, fun a b => rfl, fun a b => rfl,
    fun a b => rfl, ?_, ?_⟩
  · intro l r h
    cases l <;> cases r <;>
      simp_all [applyBinOp, plusCase, Value.isStringV, Value.strPayload]
  · intro l r h
    cases l <;> cases r <;> simp_all [applyBinOp, Value.isStringV]
  · rintro op l r (rfl | rfl | rfl) h <;>
      cases l <;> cases r <;> simp_all [applyBinOp, Value.isNumberV]
  · rintro op l r (rfl | rfl) h hl hr <;>
      cases l <;> cases r <;>
        simp_all [applyBinOp, plusCase, Value.isNumberV, Value.isStringV]

/-- Witness for C3: the spec's literal operator tests (numeric sum, space-join,
separator-free fuse, and a Null-producing unsupported combination). -/
theorem binary_op_table_witness :
    applyBinOp BinOp.plus (Value.number 3) (Value.number 4) = Value.number (3 + 4) ∧
    applyBinOp BinOp.plus (Value.str "Hello".data) (Value.str "World".data)
      = Value.str "Hello World".data ∧
    applyBinOp BinOp.ampersand (Value.str "Hello".data) (Value.str "World".data)
      = Value.str "HelloWorld".data ∧
    applyBinOp BinOp.ampersand (Value.boolean true) (Value.number 1) = Value.null := by
  obtain ⟨h1, h2, h3, h4, -⟩ := binary_op_table
  refine ⟨(h1 3 4).1, ?_, ?_, ?_⟩
  · rw [(h2 (Value.str "Hello".data) (Value.str "World".data) (Or.inl rfl)).1]
    rfl
  · rw [h3 "Hello".data "World".data]
    rfl
  · exact h4 (Value.boolean true) (Value.number 1) (by simp [Value.isStringV])

/-- Counterexample for C3 as stated: fusing a 1024-character String with the
empty String via `&` does not yield their concatenation — the result is cut to
1023 characters by the fixed buffer. -/
theorem binary_op_concat_cex :
    applyBinOp BinOp.ampersand (Value.str (List.replicate 1024 'a')) (Value.str [])
      ≠ Value.str (List.replicate 1024 'a' ++ []) := by
  intro h
  have h' := congrArg (fun v => (Value.strPayload v).length) h
  simp only [applyBinOp, Value.strPayload, List.length_take, List.append_nil,
    List.length_replicate] at h'
  omega

/-- Claim C4 (amended): `runtime_execute` reports a structural failure only for
a null AST node; a non-null node that is not a blueprint-definition is silently
accepted — the preset `success = true` result is returned with no message. -/
theorem execute_non_blueprint (rt : Runtime) (n : ASTNode) (h : isBlueprintNode n = false) :
    runtime_execute rt (some n)
      = ({ success := true, message := none, value := Value.null }, rt) := by
  cases n <;> simp_all [runtime_execute, isBlueprintNode]

/-- Witness for C4 at a concrete literal node. -/
theorem execute_non_blueprint_witness :
    isBlueprintNode (ASTNode.literal (Value.number 1)) = false ∧
    runtime_execute runtime_init (some (ASTNode.literal (Value.number 1)))
      = ({ success := true, message := none, value := Value.null }, runtime_init) :=
  ⟨rfl, execute_non_blueprint runtime_init (ASTNode.literal (Value.number 1)) rfl⟩

/-- Counterexample for C4 as stated: a non-null, non-blueprint node makes
`runtime_execute` return success with no message, not a failure Result. -/
theorem execute_non_blueprint_cex :
    (runtime_execute runtime_init (some (ASTNode.literal Value.null))).1.success = true ∧
    (runtime_execute runtime_init (some (ASTNode.literal Value.null))).1.message = none :=
  ⟨rfl, rfl⟩

/-- Every evaluation of a non-null expression node increments the operation
counter at least once (the counter is monotone through evaluation). -/
theorem evalExpr_count_ge : ∀ (e : ASTNode) (rt : Runtime),
    rt.operation_count + 1 ≤ (evalExpr rt e).2.operation_count
  | .literal v, rt => by
    simp only [evalExpr]
    split <;> simp [emitMaxOps, bumpOps]
  | .identifier n, rt => by
    simp only [evalExpr]
    split
    · simp [emitMaxOps, bumpOps]
    · split <;> simp [bumpOps]
  | .binaryOp op l r, rt => by
    simp only [evalExpr]
    split
    · simp [emitMaxOps, bumpOps]
    · have hl := evalExpr_count_ge l (bumpOps rt)
      have hr := evalExpr_count_ge r (evalExpr (bumpOps rt) l).2
      have hb : (bumpOps rt).operation_count = rt.operation_count + 1 := rfl
      show rt.operation_count + 1 ≤ (evalExpr (evalExpr (bumpOps rt) l).2 r).2.operation_count
      omega
  | .actionSet f v, rt => by
    simp only [evalExpr]
    split <;> simp [emitMaxOps, bumpOps]
  | .blueprintDef bp, rt => by
    simp only [evalExpr]
    split <;> simp [emitMaxOps, bumpOps]
  | .other, rt => by
    simp only [evalExpr]
    split <;> simp [emitMaxOps, bumpOps]

/-- Claim C5 (amended): every evaluation step increments the operation counter,
and an expression node whose own entry check finds the incremented counter
above `max_operations` evaluates to Null, emitting the stderr diagnostic. (The
abort is per node: an enclosing expression continues with that Null, so the
top-level result of an over-budget evaluation need not be Null — see the
counterexample.) -/
theorem op_bound_guard :
    (∀ (e : ASTNode) (rt : Runtime),
       rt.operation_count + 1 ≤ (evalExpr rt e).2.operation_count) ∧
    (∀ (rt : Runtime) (e : ASTNode), rt.bounds.max_operations < rt.operation_count + 1 →
       (evalExpr rt e).1 = Value.null ∧
       (evalExpr rt e).2.diagnostics = rt.diagnostics ++ [msgMaxOps] ∧
       (evalExpr rt e).2.operation_count = rt.operation_count + 1) := by
  refine ⟨evalExpr_count_ge, ?_⟩
  intro rt e h
  cases e <;>
    · simp only [evalExpr]
      rw [if_pos (by simp [bumpOps]; omega)]
      exact ⟨rfl, by simp [emitMaxOps, bumpOps], by simp [emitMaxOps, bumpOps]⟩

/-- Witness for C5: with a zero operation budget, evaluating a literal yields
Null and logs the diagnostic. -/
theorem op_bound_guard_witness :
    rtZero.bounds.max_operations < rtZero.operation_count + 1 ∧
    (evalExpr rtZero (ASTNode.literal (Value.str "x".data))).1 = Value.null ∧
    (evalExpr rtZero (ASTNode.literal (Value.str "x".data))).2.diagnostics = [msgMaxOps] :=
  ⟨by decide,
    (op_bound_guard.2 rtZero (ASTNode.literal (Value.str "x".data)) (by decide)).1,
    (op_bound_guard.2 rtZero (ASTNode.literal (Value.str "x".data)) (by decide)).2.1⟩

/-- Counterexample for C5 as stated: with a budget of 2 operations, evaluating
`"a" + "b"` exceeds the bound on the right operand (the diagnostic is emitted
and the final counter is 3 > 2), yet the top-level result is the String "a "
— not Null: the enclosing `+` absorbs the aborted operand. -/
theorem op_bound_top_level_cex :
    rtTwo.bounds.max_operations < (evalExpr rtTwo eOver).2.operation_count ∧
    (evalExpr rtTwo eOver).2.diagnostics = [msgMaxOps] ∧
    (evalExpr rtTwo eOver).1 ≠ Value.null := by
  refine ⟨by decide, by decide, ?_⟩
  intro h
  have h' : Value.str ['a', ' '] = Value.null := h
  exact Value.noConfusion h'

/-- Claim C6: dispatching a handler name that matches no when-handler of the
instance's blueprint returns the preset "When clause not found" failure Result
and returns the runtime state and the instance exactly as they were — no
transaction is opened, and fields, current state and the variable environment
are untouched. -/
theorem execute_when_unknown_handler (rt : Runtime) (inst : Instance) (nm : Str)
    (h : ∀ w ∈ inst.blueprint.whens, WhenData.name w ≠ nm) :
    runtime_execute_when rt inst nm
      = ({ success := false, message := some msgWhenNotFound, value := Value.null },
         rt, inst) := by
  unfold runtime_execute_when
  rw [List.find?_eq_none.mpr (fun w hw => by simpa using h w hw)]

/-- Witness for C6: a blueprint with only a `greet` handler, dispatched with an
absent handler name. -/
theorem execute_when_unknown_handler_witness :
    (∀ w ∈ instGreet.blueprint.whens, WhenData.name w ≠ "missing".data) ∧
    runtime_execute_when runtime_init instGreet "missing".data
      = ({ success := false, message := some msgWhenNotFound, value := Value.null },
         runtime_init, instGreet) :=
  ⟨by decide,
    execute_when_unknown_handler runtime_init instGreet "missing".data (by decide)⟩

/-- Dispatch equation for a matched when-handler: begin, run the actions,
commit unconditionally, and report success with the configured or default
message. -/
theorem execute_when_found (rt : Runtime) (inst : Instance) (nm : Str) (w : WhenData)
    (hfind : inst.blueprint.whens.find? (fun u => decide (WhenData.name u = nm)) = some w) :
    runtime_execute_when rt inst nm
      = ({ success := true
           message := some (match w.resultMessage with | some m => m | none => msgWhenOk)
           value := Value.null },
         (applyActions rt (runtime_begin_transaction inst) w.actions).1,
         runtime_commit_transaction
           (applyActions rt (runtime_begin_transaction inst) w.actions).2) := by
  unfold runtime_execute_when
  rw [hfind]

/-- A single field-set action naming an undeclared field only advances the
runtime (evaluating the right-hand side) and leaves the instance untouched. -/
theorem applyActions_unknown_field (rt : Runtime) (inst : Instance) (fname : Str)
    (vexpr : Option ASTNode)
    (hf : inst.blueprint.fields.findIdx? (fun f => decide (FieldData.name f = fname)) = none) :
    applyActions rt inst [ASTNode.actionSet fname vexpr]
      = ((runtime_evaluate_expression rt vexpr).2, inst) := by
  simp only [applyActions, setField, hf]

/-- Claim C7: a when-handler whose only action sets a field absent from the
blueprint's field list completes successfully — the transaction commits (flag
lowered, snapshot released) — and every declared field keeps its value; the
evaluated right-hand value is discarded. -/
theorem execute_when_unknown_field (rt : Runtime) (inst : Instance) (nm fname : Str)
    (vexpr : Option ASTNode) (w : WhenData)
    (hfind : inst.blueprint.whens.find? (fun u => decide (WhenData.name u = nm)) = some w)
    (hact : WhenData.actions w = [ASTNode.actionSet fname vexpr])
    (hf : ∀ f ∈ inst.blueprint.fields, FieldData.name f ≠ fname) :
    (runtime_execute_when rt inst nm).1.success = true ∧
    (runtime_execute_when rt inst nm).2.2.field_values = inst.field_values ∧
    (runtime_execute_when rt inst nm).2.2.in_transaction = false ∧
    (runtime_execute_when rt inst nm).2.2.field_snapshot = none := by
  have hf' : inst.blueprint.fields.findIdx?
      (fun f => decide (FieldData.name f = fname)) = none :=
    List.findIdx?_eq_none_iff.mpr (fun f hfm => by simpa using hf f hfm)
  rw [execute_when_found rt inst nm w hfind]
  refine ⟨rfl, ?_, rfl, rfl⟩
  rw [hact, applyActions_unknown_field rt (runtime_begin_transaction inst) fname vexpr hf']
  rfl

/-- Witness for C7: the `boom` handler sets `Nonexistent` on a blueprint whose
only field is `count`; the call succeeds, commits, and `count` is unchanged. -/
theorem execute_when_unknown_field_witness :
    (runtime_execute_when runtime_init instCnt "boom".data).1.success = true ∧
    (runtime_execute_when runtime_init instCnt "boom".data).2.2.field_values
      = instCnt.field_values ∧
    (runtime_execute_when runtime_init instCnt "boom".data).2.2.in_transaction = false ∧
    (runtime_execute_when runtime_init instCnt "boom".data).2.2.field_snapshot = none :=
  execute_when_unknown_field runtime_init instCnt "boom".data "Nonexistent".data
    (some (.literal (.number 5))) whenBoom rfl rfl (by decide)

/-- Claim C8: condition evaluation is true exactly when the expression
evaluates to `Boolean(true)` or to a non-zero Number; every other result —
Null, Strings, Arrays, `Boolean(false)` — is false. -/
theorem evaluate_condition_iff (rt : Runtime) (c : ASTNode) :
    (runtime_evaluate_condition rt (some c)).1 = true ↔
      ((evalExpr rt c).1 = Value.boolean true ∨
        ∃ x : ℚ, (evalExpr rt c).1 = Value.number x ∧ x ≠ 0) := by
  show condTruth (evalExpr rt c).1 = true ↔ _
  rcases hv : (evalExpr rt c).1 with n | s | b | _ | items
  · constructor
    · intro h
      exact Or.inr ⟨n, rfl, by simpa [condTruth] using h⟩
    · rintro (h | ⟨x, hx, hxn⟩)
      · exact absurd h (by simp)
      · obtain rfl : n = x := by simpa using hx
        simpa [condTruth] using hxn
  · simp [condTruth]
  · simp [condTruth]
  · simp [condTruth]
  · simp [condTruth]

/-- Claim C9: defining two blueprints with the same (previously unused) name
appends both to the registry — no deduplication — and every subsequent
instance creation by that name, also after further definitions, resolves by
first match to the first of the two, leaving the later one unreachable by
name. -/
theorem redefinition_shadowing (rt rt3 : Runtime) (bp1 bp2 : BlueprintData)
    (more : List BlueprintData)
    (hname : BlueprintData.name bp2 = BlueprintData.name bp1)
    (hfresh : ∀ bp ∈ rt.blueprints, BlueprintData.name bp ≠ BlueprintData.name bp1)
    (h3 : rt3.blueprints
        = (runtime_define_blueprint
            (runtime_define_blueprint rt (ASTNode.blueprintDef bp1)).2
            (ASTNode.blueprintDef bp2)).2.blueprints ++ more) :
    (runtime_define_blueprint (runtime_define_blueprint rt (ASTNode.blueprintDef bp1)).2
        (ASTNode.blueprintDef bp2)).2.blueprints = rt.blueprints ++ [bp1, bp2] ∧
    ∃ inst : Instance,
      (runtime_create_instance rt3 (BlueprintData.name bp1)).1 = some inst ∧
      inst.blueprint = bp1 := by
  have hreg : (runtime_define_blueprint (runtime_define_blueprint rt
      (ASTNode.blueprintDef bp1)).2 (ASTNode.blueprintDef bp2)).2.blueprints
      = rt.blueprints ++ [bp1, bp2] := by
    simp [runtime_define_blueprint]
  refine ⟨hreg, ?_⟩
  have h1 : rt.blueprints.find?
      (fun bp => decide (BlueprintData.name bp = BlueprintData.name bp1)) = none :=
    List.find?_eq_none.mpr (fun bp hbp => by simpa using hfresh bp hbp)
  have hlook : lookupBlueprint rt3 (BlueprintData.name bp1) = some bp1 := by
    simp [lookupBlueprint, h3, hreg, List.find?_append, h1]
  unfold runtime_create_instance
  rw [hlook]
  exact ⟨_, rfl, rfl⟩

/-- Witness for C9: two `Dog` blueprints; the registry holds both and instance
creation resolves to the first. -/
theorem redefinition_shadowing_witness :
    rtShadow.blueprints = [bpA, bpB] ∧
    ∃ inst : Instance,
      (runtime_create_instance rtShadow (BlueprintData.name bpA)).1 = some inst ∧
      inst.blueprint = bpA := by
  obtain ⟨h1, h2⟩ := redefinition_shadowing runtime_init rtShadow bpA bpB [] rfl
    (by simp [runtime_init]) (by simp [rtShadow])
  exact ⟨by simpa [runtime_init] using h1, h2⟩

/-- Claim C10: string concatenation goes through the fixed 1024-byte buffer:
`&` on Strings and `+` with a String operand produce the joined text truncated
to its first 1023 characters; joins of at most 1023 characters come through
exactly, and joins of 1024 or more characters are silently cut to length
1023 — so concatenation is length-preserving only below the buffer bound. -/
theorem concat_buffer_truncation :
    (∀ a b : Str, applyBinOp BinOp.ampersand (Value.str a) (Value.str b)
        = Value.str (List.take 1023 (a ++ b))) ∧
    (∀ a b : Str, (a ++ b).length ≤ 1023 →
        applyBinOp BinOp.ampersand (Value.str a) (Value.str b) = Value.str (a ++ b)) ∧
    (∀ a b : Str, 1024 ≤ (a ++ b).length →
        applyBinOp BinOp.ampersand (Value.str a) (Value.str b)
            = Value.str ((a ++ b).take 1023)
          ∧ ((a ++ b).take 1023).length = 1023) ∧
    (∀ l r : Value, l.isStringV = true ∨ r.isStringV = true →
        applyBinOp BinOp.plus l r
          = Value.str (List.take 1023 (l.strPayload ++ ' ' :: r.strPayload))) ∧
    (∀ a b : Str, (a ++ ' ' :: b).length ≤ 1023 →
        applyBinOp BinOp.plus (Value.str a) (Value.str b) = Value.str (a ++ ' ' :: b)) ∧
    (∀ a b : Str, 1024 ≤ (a ++ ' ' :: b).length →
        applyBinOp BinOp.plus (Value.str a) (Value.str b)
            = Value.str ((a ++ ' ' :: b).take 1023)
          ∧ ((a ++ ' ' :: b).take 1023).length = 1023) := by
  refine ⟨fun a b => rfl, ?_, ?_, ?_, ?_, ?_⟩
  · intro a b h
    simp [applyBinOp, List.take_of_length_le h]
  · intro a b h
    refine ⟨rfl, ?_⟩
    simp only [List.length_take]
    omega
  · intro l r h
    cases l <;> cases r <;>
      simp_all [applyBinOp, plusCase, Value.isStringV, Value.strPayload]
  · intro a b h
    simp [applyBinOp, plusCase, Value.isStringV, Value.strPayload,
      List.take_of_length_le h]
  · intro a b h
    refine ⟨?_, ?_⟩
    · simp [applyBinOp, plusCase, Value.isStringV, Value.strPayload]
    · simp only [List.length_take]
      omega

/-- Witness for C10: a short fuse comes through exactly; a 1024-character fuse
is cut to 1023 characters. -/
theorem concat_buffer_truncation_witness :
    applyBinOp BinOp.ampersand (Value.str "Hello".data) (Value.str "World".data)
      = Value.str ("Hello".data ++ "World".data) ∧
    applyBinOp BinOp.ampersand (Value.str (List.replicate 1024 'a')) (Value.str [])
      = Value.str ((List.replicate 1024 'a' ++ ([] : Str)).take 1023) ∧
    ((List.replicate 1024 'a' ++ ([] : Str)).take 1023).length = 1023 := by
  obtain ⟨-, h2, h3, -⟩ := concat_buffer_truncation
  have hlen : 1024 ≤ ((List.replicate 1024 'a' ++ ([] : Str)).length) := by
    simp
  exact ⟨h2 "Hello".data "World".data (by decide), (h3 (List.replicate 1024 'a') [] hlen).1,
    (h3 (List.replicate 1024 'a') [] hlen).2⟩

/-- Witness for C8: a literal Boolean-true condition evaluates to true. -/
theorem evaluate_condition_iff_witness :
    (runtime_evaluate_condition runtime_init
        (some (ASTNode.literal (Value.boolean true)))).1 = true :=
  (evaluate_condition_iff runtime_init (ASTNode.literal (Value.boolean true))).mpr
    (Or.inl rfl)
